import Mathlib

/-!
Verification of the Sequence Identity & Feature-Overlap Resolution Engine of
cancervariants/uta-tools (cool_seq_tool).

Shallow embedding of `cool_seq_tool/data_sources/feature_overlap.py`
(class `FeatureOverlap`) and of the `SeqRepoAccess.get_reference_sequence`
contract.  Python `(value, error)` tuples are embedded as pairs; a raised
`FeatureOverlapError` is embedded as `Except.error` (the raise channel),
while an ordinary return is `Except.ok`.  Machine integers are `Int`
(genomic coordinates never approach overflow in the source).
-/

/-- ResidueMode from cool_seq_tool.schemas: the two coordinate conventions the
engine accepts.  RESIDUE is 1-based inclusive, INTER_RESIDUE is 0-based
half-open boundary addressing. -/
inductive ResidueMode where
  | residue
  | interResidue
deriving DecidableEq, Repr

/-- One retained row of the MANE RefSeq GFF annotation table, as built by
FeatureOverlap._load_mane_refseq_gff_data: chromosome (normalized string),
cds_start, cds_stop (1-based inclusive), info_name (from the Name= token)
and gene (from the gene= token).  The constant type column ("CDS") is
omitted since every retained row has it. -/
structure CdsRow where
  chromosome : String
  cds_start : Int
  cds_stop : Int
  info_name : String
  gene : String
deriving DecidableEq, Repr

/-- One record of the overlap result.  In the source the records are grouped
into a dict keyed by gene, each record holding cds_start, cds_stop,
overlap_start and overlap_stop (info_name becomes the dropped index in
to_dict(orient="records")).  We return the flat list of records, each
carrying its gene (the dict key it would be grouped under); every matching
row appears exactly once, so no information is lost by flattening. -/
structure OverlapRecord where
  gene : String
  cds_start : Int
  cds_stop : Int
  overlap_start : Int
  overlap_stop : Int
deriving DecidableEq, Repr

/-- The character set passed to Python str.strip in the loader:
chromosome.strip("chr").  Python strips, from BOTH ends, every character
belonging to this set, repeatedly. -/
def stripChars : List Char := ['c', 'h', 'r']

/-- Embeds Python str.strip(chars): remove all leading and all trailing
characters that belong to `chars`. -/
def pyStrip (chars : List Char) (s : String) : String :=
  String.mk
    ((((s.data.dropWhile fun ch => decide (ch ∈ chars)).reverse.dropWhile
        fun ch => decide (ch ∈ chars)).reverse))

/-- Embeds Python s.split("_")[0]: everything before the first underscore
(the whole string when there is none). -/
def takeBeforeUnderscore (s : String) : String :=
  String.mk (s.data.takeWhile fun ch => ch != '_')

/-- Whether `s` starts with `pre`, computed on the character lists (the
byte-indexed String.startsWith does not reduce in the kernel; on valid
strings the two agree). -/
def strStartsWith (s pre : String) : Bool :=
  pre.data.isPrefixOf s.data

/-- The chromosome normalization applied to each retained row in
_load_mane_refseq_gff_data: chromosome.strip("chr").split("_")[0]. -/
def normalizeChromosome (chromosome : String) : String :=
  takeBeforeUnderscore (pyStrip stripChars chromosome)

/-- Modelled from the spec words for the refinement comparison of claim C7
(not from the source): remove exactly a leading "chr" prefix when present
(and nothing else from either end), then drop everything from the first
underscore onward. -/
def normalizeChromosomeSpec (chromosome : String) : String :=
  takeBeforeUnderscore
    (if strStartsWith chromosome "chr" then String.mk (chromosome.data.drop 3)
     else chromosome)

/-- The 24 strings matched in full by the chromosome alternation
X|Y|([1-9]|1[0-9]|2[0-2]) of the source regexes: the accepted GRCh38
chromosome names, no "chr" prefix. -/
def numericChromosomeStrings : List String :=
  ["1", "2", "3", "4", "5", "6", "7", "8", "9",
   "10", "11", "12", "13", "14", "15", "16", "17", "18", "19",
   "20", "21", "22"]

/-- All chromosome names the documentation accepts: 1..22, X, Y. -/
def validChromosomeStrings : List String :=
  ["X", "Y"] ++ numericChromosomeStrings

/-- Embeds re.match applied to the pattern of get_grch38_cds_overlap,
r"^X|Y|([1-9]|1[0-9]|2[0-2])$", on the supplied chromosome string.  The
alternation associates as (^X) | (Y) | (([1-9]|1[0-9]|2[0-2])$): under
re.match every branch is implicitly anchored at the start of the string,
but only the numeric branch is anchored at the end, so the X and Y
branches match any string that merely STARTS with X or Y.  (Python `$`
would also match before a single trailing newline; chromosome names
contain no newline, and this embedding covers newline-free strings.) -/
def chromosomePatternMatch (chromosome : String) : Bool :=
  strStartsWith chromosome "X" || strStartsWith chromosome "Y"
    || numericChromosomeStrings.contains chromosome

/-- Embeds the fully anchored regex of _get_chr_from_alt_ac,
r"^GRCh38:(?P<chromosome>X|Y|([1-9]|1[0-9]|2[0-2]))$", applied to one
alias: it succeeds exactly when the alias is "GRCh38:" followed by one of
the 24 chromosome names, and the captured group is that name. -/
def grch38AliasChromosome (a : String) : Option String :=
  validChromosomeStrings.find? fun c => a == String.append "GRCh38:" c

/-- Embeds FeatureOverlap._get_chr_from_alt_ac.  The argument `translate`
stands for seqrepo_access.translate_identifier(identifier, "GRCh38"),
whose Python result (aliases, error_msg) is embedded as
Except String (List String): the source checks error_msg first and raises
it, so a truthy error_msg is Except.error regardless of aliases.  Raising
FeatureOverlapError is Except.error. -/
def _get_chr_from_alt_ac (translate : String → Except String (List String))
    (identifier : String) : Except String String :=
  match translate identifier with
  | Except.error msg => Except.error msg
  | Except.ok aliases =>
      if aliases.isEmpty then
        Except.error (String.append "Unable to find GRCh38 aliases for: " identifier)
      else
        match aliases.findSome? grch38AliasChromosome with
        | some chrom => Except.ok chrom
        | none =>
            Except.error
              (String.append "Unable to find GRCh38 chromosome for: " identifier)

/-- Python truthiness of an Optional[str]: None and the empty string are
falsy, every other string is truthy. -/
def strTruthy : Option String → Bool
  | none => false
  | some s => s != ""

/-- The chromosome-resolution prefix of get_grch38_cds_overlap (its first
if/else block): if `chromosome` is truthy it is validated against the
chromosome pattern and used; otherwise a truthy `identifier` is resolved
through _get_chr_from_alt_ac; otherwise the missing-field
FeatureOverlapError is raised. -/
def resolveChromosome (translate : String → Except String (List String))
    (chromosome identifier : Option String) : Except String String :=
  if strTruthy chromosome then
    if chromosomePatternMatch (chromosome.getD "") then
      Except.ok (chromosome.getD "")
    else Except.error "`chromosome` must be 1, ..., 22, X, or Y"
  else
    if strTruthy identifier then _get_chr_from_alt_ac translate (identifier.getD "")
    else Except.error "Must provide either `chromosome` or `identifier`"

/-- The inter-residue-to-residue conversion of get_grch38_cds_overlap:
in INTER_RESIDUE mode, start += 1 when start != end, otherwise end += 1;
RESIDUE coordinates pass through unchanged. -/
def normalizeInterval (residue_mode : ResidueMode) (start end_ : Int) :
    Int × Int :=
  match residue_mode with
  | ResidueMode.interResidue =>
      if start ≠ end_ then (start + 1, end_) else (start, end_ + 1)
  | ResidueMode.residue => (start, end_)

/-- The dataframe filter of get_grch38_cds_overlap: rows whose chromosome
equals the resolved chromosome and with cds_start <= end and
cds_stop >= start. -/
def matchingRows (df : List CdsRow) (chrom : String) (start end_ : Int) :
    List CdsRow :=
  df.filter fun row =>
    decide (row.chromosome = chrom ∧ row.cds_start ≤ end_ ∧ row.cds_stop ≥ start)

/-- The overlap columns added to each matching row:
overlap_start = x if start <= x else start (x = cds_start) and
overlap_stop = end if end <= x else x (x = cds_stop), exactly as the two
lambdas in the source. -/
def clipRow (start end_ : Int) (row : CdsRow) : OverlapRecord :=
  ⟨row.gene, row.cds_start, row.cds_stop,
   if start ≤ row.cds_start then row.cds_start else start,
   if end_ ≤ row.cds_stop then end_ else row.cds_stop⟩

/-- The records produced for a resolved chromosome and an already
normalized query interval: the matching rows, each clipped. -/
def overlapRecords (df : List CdsRow) (chrom : String) (start end_ : Int) :
    List OverlapRecord :=
  (matchingRows df chrom start end_).map (clipRow start end_)

/-- Embeds FeatureOverlap.get_grch38_cds_overlap.  `translate` stands for
the injected seqrepo_access translate_identifier capability and `df` for
the loaded annotation table self.df.  A raised FeatureOverlapError is
Except.error; the ordinary return value Optional[Dict] is Except.ok, with
None embedded as none and the grouped dict flattened to the list of its
records, each carrying its gene key (see OverlapRecord). -/
def get_grch38_cds_overlap (translate : String → Except String (List String))
    (df : List CdsRow) (start end_ : Int)
    (chromosome identifier : Option String)
    (residue_mode : ResidueMode) :
    Except String (Option (List OverlapRecord)) :=
  match resolveChromosome translate chromosome identifier with
  | Except.error e => Except.error e
  | Except.ok chrom =>
      let s := (normalizeInterval residue_mode start end_).1
      let e := (normalizeInterval residue_mode start end_).2
      let feature_df := matchingRows df chrom s e
      if feature_df.isEmpty then Except.ok none
      else Except.ok (some (feature_df.map (clipRow s e)))

/-- Modelled from the spec: SeqRepoAccess.get_reference_sequence is code of
this repository that is not under src/ (only its tests are); this
definition follows spec section 4.1 and the expectations of
tests/handlers/test_seqrepo_access.py.  The repository is a partial map
from identifier to sequence; the result is the Python (sequence, error)
pair.  Omitted bounds default to the sequence origin and sequence end
under the active mode; start > end is rejected with the documented
message before any conversion; RESIDUE positions convert to INTER_RESIDUE
(residue n becomes inter-residue start n - 1, the residue end n is the
inter-residue end n); an end beyond the sequence length is rejected with
the out-of-index message; otherwise the half-open slice is returned. -/
def get_reference_sequence (repo : String → Option String) (identifier : String)
    (start end_ : Option Nat) (residue_mode : ResidueMode) :
    String × Option String :=
  match repo identifier with
  | none =>
      ("", some (String.append "Accession, "
        (String.append identifier ", not found in SeqRepo")))
  | some seq =>
      let s := start.getD (match residue_mode with
        | ResidueMode.residue => 1
        | ResidueMode.interResidue => 0)
      let e := end_.getD seq.length
      if e < s then
        ("", some (String.append "start ("
          (String.append (toString s)
            (String.append ") cannot be greater than end ("
              (String.append (toString e) ")")))))
      else
        let s := match residue_mode with
          | ResidueMode.residue => s - 1
          | ResidueMode.interResidue => s
        if seq.length < e then
          ("", some (String.append "End inter-residue coordinate ("
            (String.append (toString e)
              (String.append ") is out of index on " identifier))))
        else ((seq.drop s).take (e - s), none)

/-- A translate capability with no successful lookups, mirroring the error
message of SeqRepoAccess.translate_identifier on an unknown identifier. -/
def emptyTranslate : String → Except String (List String) :=
  fun identifier =>
    Except.error
      (String.append "SeqRepo unable to get translated identifiers for " identifier)

/-- A small fixture translate capability: the GRCh38 chromosome 7 accession
resolves to its alias set, everything else errors. -/
def fixtureTranslate : String → Except String (List String) :=
  fun identifier =>
    if identifier = "NC_000007.14" then
      Except.ok ["refseq:NC_000007.14", "GRCh38:7"]
    else
      Except.error
        (String.append "SeqRepo unable to get translated identifiers for " identifier)

/-- A fixture annotation row on chromosome 7 spanning residues 100..200. -/
def exampleRow : CdsRow := ⟨"7", 100, 200, "NP_EX", "EX"⟩

/-- A fixture annotation row on chromosome 7 spanning residues 500..1000,
reachable by a query ending at 1000 but not by one starting at 1001. -/
def demoRow : CdsRow := ⟨"7", 500, 1000, "NP_DEMO", "DEMO"⟩

/-- A small fixture sequence repository for the reference-sequence model. -/
def demoRepo : String → Option String :=
  fun identifier => if identifier = "NP_TEST" then some "MVKAE" else none

deriving instance DecidableEq for Except

/-! ## Helper lemmas shared by several claims -/

/-- Every element of takeWhile satisfies the predicate. -/
theorem mem_takeWhile_pred {α : Type} {p : α → Bool} :
    ∀ {l : List α} {x : α}, x ∈ l.takeWhile p → p x = true := by
  intro l
  induction l with
  | nil => intro x h; simp at h
  | cons a l ih =>
      intro x h
      by_cases hp : p a
      · rw [List.takeWhile_cons_of_pos hp] at h
        rcases List.mem_cons.mp h with h | h
        · subst h; exact hp
        · exact ih h
      · rw [List.takeWhile_cons_of_neg hp] at h
        simp at h

/-- The head of dropWhile, when present, falsifies the predicate. -/
theorem dropWhile_head?_pred {α : Type} {p : α → Bool} :
    ∀ {l : List α} {x : α}, (l.dropWhile p).head? = some x → p x = false := by
  intro l
  induction l with
  | nil => intro x h; simp at h
  | cons a l ih =>
      intro x h
      by_cases hp : p a
      · rw [List.dropWhile_cons_of_pos hp] at h
        exact ih h
      · rw [List.dropWhile_cons_of_neg hp] at h
        simp only [List.head?_cons, Option.some.injEq] at h
        subst h
        simpa using hp

/-- Stripping a predicate from both ends of a list (dropWhile, then dropWhile
on the reverse) decomposes the list into an all-p run, the stripped core
whose first and last elements falsify p, and another all-p run. -/
theorem strip_decomp {α : Type} (p : α → Bool) (l : List α) :
    ∃ a b : List α,
      l = a ++ ((l.dropWhile p).reverse.dropWhile p).reverse ++ b
      ∧ (∀ x ∈ a, p x = true) ∧ (∀ x ∈ b, p x = true)
      ∧ (∀ x, (((l.dropWhile p).reverse.dropWhile p).reverse).head? = some x →
          p x = false)
      ∧ (∀ x, (((l.dropWhile p).reverse.dropWhile p).reverse).getLast? = some x →
          p x = false) := by
  have h2 : ((l.dropWhile p).reverse.dropWhile p).reverse
        ++ ((l.dropWhile p).reverse.takeWhile p).reverse = l.dropWhile p := by
    have h := congrArg List.reverse
      (List.takeWhile_append_dropWhile p (l.dropWhile p).reverse)
    rwa [List.reverse_append, List.reverse_reverse] at h
  refine ⟨l.takeWhile p, ((l.dropWhile p).reverse.takeWhile p).reverse,
    ?_, ?_, ?_, ?_, ?_⟩
  · conv_lhs => rw [← List.takeWhile_append_dropWhile p l]
    rw [List.append_assoc, h2]
  · intro x hx; exact mem_takeWhile_pred hx
  · intro x hx; rw [List.mem_reverse] at hx; exact mem_takeWhile_pred hx
  · intro x hx
    have hu : (l.dropWhile p).head? = some x := by
      rw [← h2, List.head?_append, hx]; rfl
    exact dropWhile_head?_pred hu
  · intro x hx
    rw [List.getLast?_reverse] at hx
    exact dropWhile_head?_pred hx

/-- The four computed fields of a clipped record: the copied bounds, and the
overlap columns as max/min of the row bounds with the query bounds. -/
theorem clipRow_fields (start end_ : Int) (row : CdsRow) :
    (clipRow start end_ row).gene = row.gene
    ∧ (clipRow start end_ row).cds_start = row.cds_start
    ∧ (clipRow start end_ row).cds_stop = row.cds_stop
    ∧ (clipRow start end_ row).overlap_start = max row.cds_start start
    ∧ (clipRow start end_ row).overlap_stop = min row.cds_stop end_ := by
  refine ⟨rfl, rfl, rfl, ?_, ?_⟩
  · simp only [clipRow]; split <;> omega
  · simp only [clipRow]; split <;> omega

/-- Membership in the clipped record list is exactly the source's filter
condition followed by the clipping map. -/
theorem mem_overlapRecords {df : List CdsRow} {chrom : String} {s e : Int}
    {rec : OverlapRecord} :
    rec ∈ overlapRecords df chrom s e ↔
      ∃ row, row ∈ df ∧ row.chromosome = chrom ∧ row.cds_start ≤ e
        ∧ row.cds_stop ≥ s ∧ rec = clipRow s e row := by
  simp only [overlapRecords, matchingRows, List.mem_map, List.mem_filter,
    decide_eq_true_eq]
  constructor
  · rintro ⟨row, ⟨hmem, hc, h1, h2⟩, hrec⟩
    exact ⟨row, hmem, hc, h1, h2, hrec.symm⟩
  · rintro ⟨row, hmem, hc, h1, h2, hrec⟩
    exact ⟨row, ⟨hmem, hc, h1, h2⟩, hrec.symm⟩

/-- When chromosome resolution fails, the operation propagates the raised
error. -/
theorem get_overlap_error {t : String → Except String (List String)}
    {df : List CdsRow} {start end_ : Int} {c i : Option String}
    {mode : ResidueMode} {msg : String}
    (hr : resolveChromosome t c i = Except.error msg) :
    get_grch38_cds_overlap t df start end_ c i mode = Except.error msg := by
  unfold get_grch38_cds_overlap
  rw [hr]

/-- When chromosome resolution succeeds, the operation is the empty test on
the filtered rows followed by the clipping map. -/
theorem get_overlap_ok {t : String → Except String (List String)}
    {df : List CdsRow} {start end_ : Int} {c i : Option String}
    {mode : ResidueMode} {chrom : String}
    (hr : resolveChromosome t c i = Except.ok chrom) :
    get_grch38_cds_overlap t df start end_ c i mode =
      if (matchingRows df chrom (normalizeInterval mode start end_).1
            (normalizeInterval mode start end_).2).isEmpty
      then Except.ok none
      else Except.ok (some (overlapRecords df chrom
            (normalizeInterval mode start end_).1
            (normalizeInterval mode start end_).2)) := by
  unfold get_grch38_cds_overlap overlapRecords
  rw [hr]

/-! ## Claim theorems -/

/-- Claim C1, counterexample.  The claim states that the zero-width
inter-residue input [1000,1000] normalizes to the 1-based interval
[1001,1001]; in the code the start == end branch increments end, so
[1000,1000] normalizes to [1000,1001], not [1001,1001]. -/
theorem C1_counterexample :
    normalizeInterval ResidueMode.interResidue 1000 1000 = (1000, 1001)
    ∧ normalizeInterval ResidueMode.interResidue 1000 1000
        ≠ ((1001 : Int), (1001 : Int)) := by
  exact ⟨by decide, by decide⟩

/-- Claim C1, amended.  An INTER_RESIDUE query is answered exactly as the
RESIDUE query at the normalized coordinates, where normalization
increments start when start != end and increments end when start == end;
the zero-width input [1000,1000] normalizes to [1000,1001] while the
non-zero-width input [1000,1001] normalizes to [1001,1001] — different
1-based intervals, observably so on a row with cds_stop = 1000 that only
the zero-width query reaches. -/
theorem C1_amended :
    (∀ (t : String → Except String (List String)) (df : List CdsRow)
        (s e : Int) (c i : Option String),
      get_grch38_cds_overlap t df s e c i ResidueMode.interResidue
        = get_grch38_cds_overlap t df
            (normalizeInterval ResidueMode.interResidue s e).1
            (normalizeInterval ResidueMode.interResidue s e).2 c i
            ResidueMode.residue)
    ∧ normalizeInterval ResidueMode.interResidue 1000 1000 = (1000, 1001)
    ∧ normalizeInterval ResidueMode.interResidue 1000 1001 = (1001, 1001)
    ∧ get_grch38_cds_overlap emptyTranslate [demoRow] 1000 1000 (some "7") none
        ResidueMode.interResidue
      ≠ get_grch38_cds_overlap emptyTranslate [demoRow] 1000 1001 (some "7") none
        ResidueMode.interResidue := by
  refine ⟨?_, by decide, by decide, by decide⟩
  intro t df s e c i
  unfold get_grch38_cds_overlap
  cases resolveChromosome t c i <;> rfl

/-- Claim C1, witness: the factorization through normalizeInterval applied
at a concrete query. -/
theorem C1_amended_witness :
    get_grch38_cds_overlap emptyTranslate [demoRow] 1000 1000 (some "7") none
        ResidueMode.interResidue
      = get_grch38_cds_overlap emptyTranslate [demoRow] 1000 1001 (some "7") none
        ResidueMode.residue :=
  C1_amended.1 emptyTranslate [demoRow] 1000 1000 (some "7") none

/-- Claim C2: a CDS row contributes a record iff its chromosome equals the
resolved chromosome, cds_start <= query end and cds_stop >= query start;
each record carries overlap_start = max(cds_start, start) and
overlap_stop = min(cds_stop, end); a successful non-None result is exactly
the clipped matching rows at the normalized interval; and the documented
example (row [100,200], RESIDUE query [50,150]) yields overlap 100..150. -/
theorem C2_selection_and_clipping :
    (∀ (df : List CdsRow) (chrom : String) (s e : Int) (rec : OverlapRecord),
      rec ∈ overlapRecords df chrom s e ↔
        ∃ row, row ∈ df ∧ row.chromosome = chrom ∧ row.cds_start ≤ e
          ∧ row.cds_stop ≥ s ∧ rec = clipRow s e row)
    ∧ (∀ (s e : Int) (row : CdsRow),
        (clipRow s e row).overlap_start = max row.cds_start s
        ∧ (clipRow s e row).overlap_stop = min row.cds_stop e)
    ∧ (∀ (t : String → Except String (List String)) (df : List CdsRow)
        (start end_ : Int) (c i : Option String) (mode : ResidueMode)
        (recs : List OverlapRecord),
        get_grch38_cds_overlap t df start end_ c i mode
            = Except.ok (some recs) →
        ∃ chrom, resolveChromosome t c i = Except.ok chrom
          ∧ recs = overlapRecords df chrom
              (normalizeInterval mode start end_).1
              (normalizeInterval mode start end_).2)
    ∧ get_grch38_cds_overlap fixtureTranslate [exampleRow] 50 150 (some "7")
        none ResidueMode.residue
      = Except.ok (some [⟨"EX", 100, 200, 100, 150⟩]) := by
  refine ⟨fun df chrom s e rec => mem_overlapRecords, ?_, ?_, by decide⟩
  · intro s e row
    exact ⟨(clipRow_fields s e row).2.2.2.1, (clipRow_fields s e row).2.2.2.2⟩
  · intro t df start end_ c i mode recs h
    cases hr : resolveChromosome t c i with
    | error msg =>
        rw [get_overlap_error hr] at h
        exact absurd h (by simp)
    | ok chrom =>
        rw [get_overlap_ok hr] at h
        refine ⟨chrom, rfl, ?_⟩
        split at h
        · exact absurd h (by simp)
        · simp only [Except.ok.injEq, Option.some.injEq] at h
          exact h.symm

/-- Claim C2, witness for the successful-result conjunct, at the documented
example query. -/
theorem C2_witness :
    ∃ chrom, resolveChromosome fixtureTranslate (some "7") none
        = Except.ok chrom
      ∧ [(⟨"EX", 100, 200, 100, 150⟩ : OverlapRecord)]
          = overlapRecords [exampleRow] chrom
              (normalizeInterval ResidueMode.residue 50 150).1
              (normalizeInterval ResidueMode.residue 50 150).2 :=
  C2_selection_and_clipping.2.2.1 fixtureTranslate [exampleRow] 50 150 (some "7")
    none ResidueMode.residue [⟨"EX", 100, 200, 100, 150⟩] (by decide)

/-- Claim C3, counterexample.  The claim states that input-validation
failures are reported as a result-carried error value and never raised;
in the code a malformed chromosome raises FeatureOverlapError
(Except.error in this embedding), and the return type Optional[Dict]
carries no error value at all. -/
theorem C3_counterexample :
    get_grch38_cds_overlap emptyTranslate [] 1 2 (some "chr7") none
      ResidueMode.residue
    = Except.error "`chromosome` must be 1, ..., 22, X, or Y" := by
  decide

/-- Claim C3, amended: input-validation failures (malformed chromosome,
missing chromosome/identifier combination) and lookup misses are reported
synchronously by RAISING FeatureOverlapError with the documented message;
the operation never returns these failures as a result value. -/
theorem C3_amended :
    ∀ (t : String → Except String (List String)) (df : List CdsRow)
      (start end_ : Int) (mode : ResidueMode),
    (∀ c : String, strTruthy (some c) = true → chromosomePatternMatch c = false →
        get_grch38_cds_overlap t df start end_ (some c) none mode
          = Except.error "`chromosome` must be 1, ..., 22, X, or Y")
    ∧ get_grch38_cds_overlap t df start end_ none none mode
        = Except.error "Must provide either `chromosome` or `identifier`"
    ∧ (∀ i msg : String, strTruthy (some i) = true →
        _get_chr_from_alt_ac t i = Except.error msg →
        get_grch38_cds_overlap t df start end_ none (some i) mode
          = Except.error msg) := by
  intro t df start end_ mode
  refine ⟨?_, ?_, ?_⟩
  · intro c hc hm
    refine get_overlap_error ?_
    simp [resolveChromosome, hc, hm]
  · refine get_overlap_error ?_
    simp [resolveChromosome, strTruthy]
  · intro i msg hi herr
    refine get_overlap_error ?_
    simp only [resolveChromosome, strTruthy, Bool.false_eq_true, if_false,
      Option.getD_some]
    rw [if_pos (show (i != "") = true from hi)]
    exact herr

/-- Claim C3, witness: the three raise paths at concrete inputs. -/
theorem C3_amended_witness :
    get_grch38_cds_overlap emptyTranslate [] 1 2 (some "chr7") none
        ResidueMode.interResidue
      = Except.error "`chromosome` must be 1, ..., 22, X, or Y"
    ∧ get_grch38_cds_overlap emptyTranslate [] 1 2 none none
        ResidueMode.residue
      = Except.error "Must provide either `chromosome` or `identifier`"
    ∧ get_grch38_cds_overlap emptyTranslate [] 1 2 none (some "FOO")
        ResidueMode.residue
      = Except.error "SeqRepo unable to get translated identifiers for FOO" :=
  ⟨(C3_amended emptyTranslate [] 1 2 ResidueMode.interResidue).1 "chr7"
      (by decide) (by decide),
   (C3_amended emptyTranslate [] 1 2 ResidueMode.residue).2.1,
   (C3_amended emptyTranslate [] 1 2 ResidueMode.residue).2.2 "FOO"
      "SeqRepo unable to get translated identifiers for FOO"
      (by decide) (by decide)⟩

/-- Claim C4: the claim (and the source docstring and error message) says
the chromosome argument is accepted iff it is exactly one of 1..22, X, Y,
and that strings merely beginning with X or Y are rejected.  The code
pattern r"^X|Y|([1-9]|1[0-9]|2[0-2])$" leaves the X and Y branches
unanchored at the end, so "X1" matches, is outside the documented set,
is not matched by the correctly anchored GRCh38 alias pattern used
elsewhere in the same class, and the query proceeds to the table scan and
returns normally instead of failing. -/
theorem C4_code_accepts_X1 :
    chromosomePatternMatch "X1" = true
    ∧ validChromosomeStrings.contains "X1" = false
    ∧ grch38AliasChromosome "GRCh38:X1" = none
    ∧ get_grch38_cds_overlap emptyTranslate [] 1 2 (some "X1") none
        ResidueMode.residue = Except.ok none := by
  exact ⟨by decide, by decide, by decide, by decide⟩

/-- Claim C5: under a resolved chromosome, when no row passes the
selection test the result is Except.ok none (the explicit absence value),
and a returned mapping is never empty. -/
theorem C5_no_match_returns_none :
    ∀ (t : String → Except String (List String)) (df : List CdsRow)
      (start end_ : Int) (c i : Option String) (mode : ResidueMode)
      (chrom : String),
    resolveChromosome t c i = Except.ok chrom →
    (matchingRows df chrom (normalizeInterval mode start end_).1
        (normalizeInterval mode start end_).2 = [] →
      get_grch38_cds_overlap t df start end_ c i mode = Except.ok none)
    ∧ (∀ recs, get_grch38_cds_overlap t df start end_ c i mode
          = Except.ok (some recs) → recs ≠ []) := by
  intro t df start end_ c i mode chrom hr
  constructor
  · intro hempty
    rw [get_overlap_ok hr, hempty]
    rfl
  · intro recs h
    rw [get_overlap_ok hr] at h
    split at h
    · exact absurd h (by simp)
    · rename_i hne
      simp only [Except.ok.injEq, Option.some.injEq] at h
      intro hnil
      rw [← h] at hnil
      apply hne
      unfold overlapRecords at hnil
      simpa using hnil

/-- Claim C5, witness: a query interval fully outside the only row yields
the absence value. -/
theorem C5_witness :
    get_grch38_cds_overlap emptyTranslate [exampleRow] 300 400 (some "7") none
      ResidueMode.residue = Except.ok none :=
  (C5_no_match_returns_none emptyTranslate [exampleRow] 300 400 (some "7") none
      ResidueMode.residue "7" (by decide)).1 (by decide)

/-- Claim C6: when a non-empty chromosome argument is supplied, the result
does not depend on the translate capability (the only conduit to
SequenceAccess) nor on the identifier argument — the identifier is never
consulted, even when the two disagree. -/
theorem C6_chromosome_precedence :
    ∀ (t1 t2 : String → Except String (List String)) (df : List CdsRow)
      (start end_ : Int) (c : String) (i1 i2 : Option String)
      (mode : ResidueMode), c ≠ "" →
    get_grch38_cds_overlap t1 df start end_ (some c) i1 mode
      = get_grch38_cds_overlap t2 df start end_ (some c) i2 mode := by
  intro t1 t2 df start end_ c i1 i2 mode hc
  have hb : strTruthy (some c) = true := by
    simp [strTruthy, hc]
  have hres : resolveChromosome t1 (some c) i1 = resolveChromosome t2 (some c) i2 := by
    simp [resolveChromosome, hb]
  unfold get_grch38_cds_overlap
  rw [hres]

/-- Claim C6, witness: a disagreeing identifier (whose lookup would even
fail under the first capability) does not change the result. -/
theorem C6_witness :
    get_grch38_cds_overlap fixtureTranslate [exampleRow] 50 150 (some "7")
        (some "NC_000007.13") ResidueMode.residue
      = get_grch38_cds_overlap emptyTranslate [exampleRow] 50 150 (some "7")
        none ResidueMode.residue :=
  C6_chromosome_precedence fixtureTranslate emptyTranslate [exampleRow] 50 150
    "7" (some "NC_000007.13") none ResidueMode.residue (by decide)

/-- Claim C7, counterexample.  The claim says the loader removes exactly a
leading "chr" prefix and nothing else from either end; the code calls
Python str.strip("chr"), which removes every leading and trailing
character in the set \x7bc, h, r\x7d: on "chrrX" the code stores "X" while the
claimed rule stores "rX". -/
theorem C7_counterexample :
    normalizeChromosome "chrrX" = "X"
    ∧ normalizeChromosomeSpec "chrrX" = "rX"
    ∧ normalizeChromosome "chrrX" ≠ normalizeChromosomeSpec "chrrX" := by
  exact ⟨by decide, by decide, by decide⟩

/-- Claim C7, amended: the stored chromosome equals the source string with
ALL leading and ALL trailing characters drawn from the set \x7bc, h, r\x7d
removed (Python str.strip set semantics) and then everything from the
first underscore onward dropped; the removal is maximal (the remaining
core neither starts nor ends with a character of the set), the kept part
is underscore-free and is cut exactly at the first underscore; on the
canonical names chr1..chr22, chrX, chrY (with or without an
underscore-delimited scaffold suffix) this coincides with removing the
"chr" prefix. -/
theorem C7_amended :
    (∀ s : String, ∃ a b : List Char,
        s.data = a ++ (pyStrip stripChars s).data ++ b
        ∧ (∀ ch ∈ a, ch ∈ stripChars) ∧ (∀ ch ∈ b, ch ∈ stripChars)
        ∧ (∀ h0, (pyStrip stripChars s).data.head? = some h0 → h0 ∉ stripChars)
        ∧ (∀ l0, (pyStrip stripChars s).data.getLast? = some l0 →
            l0 ∉ stripChars))
    ∧ (∀ s : String, ∃ r : List Char,
        (pyStrip stripChars s).data = (normalizeChromosome s).data ++ r
        ∧ (∀ ch ∈ (normalizeChromosome s).data, ch ≠ '_')
        ∧ (∀ h0, r.head? = some h0 → h0 = '_'))
    ∧ (∀ c ∈ validChromosomeStrings,
        normalizeChromosome (String.append "chr" c) = c)
    ∧ normalizeChromosome "chr19_KI270866v1_alt" = "19" := by
  refine ⟨?_, ?_, by decide, by decide⟩
  · intro s
    obtain ⟨a, b, hdec, ha, hb, hhead, hlast⟩ :=
      strip_decomp (fun ch => decide (ch ∈ stripChars)) s.data
    refine ⟨a, b, hdec, ?_, ?_, ?_, ?_⟩
    · intro ch hch
      simpa using ha ch hch
    · intro ch hch
      simpa using hb ch hch
    · intro h0 hh
      simpa using hhead h0 hh
    · intro l0 hl
      simpa using hlast l0 hl
  · intro s
    refine ⟨(pyStrip stripChars s).data.dropWhile (fun ch => ch != '_'),
      ?_, ?_, ?_⟩
    · exact (List.takeWhile_append_dropWhile (fun ch => ch != '_')
        (pyStrip stripChars s).data).symm
    · intro ch hch
      have hch2 : ch ∈ (pyStrip stripChars s).data.takeWhile
          (fun ch => ch != '_') := hch
      have := mem_takeWhile_pred hch2
      simpa using this
    · intro h0 hh
      have := dropWhile_head?_pred hh
      simpa using this

/-- Claim C7, witness: the strip-then-cut rule at the canonical name chrX. -/
theorem C7_amended_witness :
    normalizeChromosome (String.append "chr" "X") = "X" :=
  C7_amended.2.2.1 "X" (by decide)

/-- Claim C8: for every accession known to the repository and every residue
pair 1 <= s <= e within range, the RESIDUE query (s, e) returns the same
(sequence, error) result as the INTER_RESIDUE query (s - 1, e): residue
coordinates convert to inter-residue addressing before slicing.
SeqRepoAccess.get_reference_sequence itself is not under src/, so this is
settled against the spec-modelled definition above. -/
theorem C8_residue_inter_residue_agreement :
    ∀ (repo : String → Option String) (identifier seq : String) (s e : Nat),
    repo identifier = some seq → 1 ≤ s → s ≤ e → e ≤ seq.length →
    get_reference_sequence repo identifier (some s) (some e) ResidueMode.residue
      = get_reference_sequence repo identifier (some (s - 1)) (some e)
          ResidueMode.interResidue := by
  intro repo identifier seq s e hrepo h1 hse hlen
  have hnot1 : ¬ e < s := Nat.not_lt.mpr hse
  have hnot2 : ¬ e < s - 1 := by omega
  have hnot3 : ¬ seq.length < e := Nat.not_lt.mpr hlen
  unfold get_reference_sequence
  rw [hrepo]
  simp only [Option.getD_some]
  rw [if_neg hnot1, if_neg hnot2, if_neg hnot3]

/-- Claim C8, witness: the agreement at a concrete repository and bounds. -/
theorem C8_witness :
    get_reference_sequence demoRepo "NP_TEST" (some 2) (some 4)
        ResidueMode.residue
      = get_reference_sequence demoRepo "NP_TEST" (some 1) (some 4)
          ResidueMode.interResidue :=
  C8_residue_inter_residue_agreement demoRepo "NP_TEST" "MVKAE" 2 4
    (by decide) (by decide) (by decide) (by decide)

/-- Claim C9: the operation performs no start <= end validation.  When the
normalized interval satisfies start <= end (and the table rows are
well-formed), every record satisfies
cds_start <= overlap_start <= overlap_stop <= cds_stop; but a query with
start > end is not rejected: it can return a mapping holding a record with
overlap_start > overlap_stop. -/
theorem C9_no_interval_validation :
    (∀ (df : List CdsRow) (chrom : String) (s e : Int),
      (∀ row ∈ df, row.cds_start ≤ row.cds_stop) → s ≤ e →
      ∀ rec ∈ overlapRecords df chrom s e,
        rec.cds_start ≤ rec.overlap_start
          ∧ rec.overlap_start ≤ rec.overlap_stop
          ∧ rec.overlap_stop ≤ rec.cds_stop)
    ∧ (∃ (s e : Int) (recs : List OverlapRecord) (rec : OverlapRecord),
        e < s
        ∧ get_grch38_cds_overlap emptyTranslate [exampleRow] s e (some "7")
            none ResidueMode.residue = Except.ok (some recs)
        ∧ rec ∈ recs ∧ rec.overlap_stop < rec.overlap_start) := by
  constructor
  · intro df chrom s e hwf hse rec hrec
    rcases mem_overlapRecords.mp hrec with ⟨row, hmem, hc, hle, hge, hrec⟩
    subst hrec
    have hrow := hwf row hmem
    obtain ⟨-, hcs, hct, hos, hot⟩ := clipRow_fields s e row
    refine ⟨?_, ?_, ?_⟩
    · rw [hcs, hos]; omega
    · rw [hos, hot]; omega
    · rw [hot, hct]; omega
  · exact ⟨180, 120, [⟨"EX", 100, 200, 180, 120⟩], ⟨"EX", 100, 200, 180, 120⟩,
      by decide, by decide, by decide, by decide⟩

/-- Claim C9, witness: the bounds chain at the documented example row and
query. -/
theorem C9_witness :
    (clipRow 50 150 exampleRow).cds_start
        ≤ (clipRow 50 150 exampleRow).overlap_start
    ∧ (clipRow 50 150 exampleRow).overlap_start
        ≤ (clipRow 50 150 exampleRow).overlap_stop
    ∧ (clipRow 50 150 exampleRow).overlap_stop
        ≤ (clipRow 50 150 exampleRow).cds_stop :=
  C9_no_interval_validation.1 [exampleRow] "7" 50 150 (by decide) (by decide)
    (clipRow 50 150 exampleRow) (by decide)

/-- Claim C10: an empty-string chromosome is falsy in the source's truthiness
test, so it behaves exactly like an absent chromosome: the identifier is
used when supplied, the missing-field error is raised when it is not, and
the invalid-chromosome error is never produced for the empty string. -/
theorem C10_empty_chromosome_falsy :
    ∀ (t : String → Except String (List String)) (df : List CdsRow)
      (start end_ : Int) (mode : ResidueMode),
    (∀ i : Option String,
        get_grch38_cds_overlap t df start end_ (some "") i mode
          = get_grch38_cds_overlap t df start end_ none i mode)
    ∧ get_grch38_cds_overlap t df start end_ (some "") none mode
        = Except.error "Must provide either `chromosome` or `identifier`"
    ∧ get_grch38_cds_overlap t df start end_ (some "") none mode
        ≠ Except.error "`chromosome` must be 1, ..., 22, X, or Y" := by
  intro t df start end_ mode
  have hres : ∀ i, resolveChromosome t (some "") i = resolveChromosome t none i :=
    fun i => rfl
  have h2 : get_grch38_cds_overlap t df start end_ (some "") none mode
      = Except.error "Must provide either `chromosome` or `identifier`" :=
    get_overlap_error rfl
  refine ⟨fun i => ?_, h2, ?_⟩
  · unfold get_grch38_cds_overlap
    rw [hres i]
  · rw [h2]
    intro hcontra
    exact absurd (Except.error.inj hcontra) (by decide)

/-- Claim C10, witness: the empty-string chromosome defers to the supplied
identifier exactly as an absent chromosome does. -/
theorem C10_witness :
    get_grch38_cds_overlap fixtureTranslate [exampleRow] 50 150 (some "")
        (some "NC_000007.14") ResidueMode.residue
      = get_grch38_cds_overlap fixtureTranslate [exampleRow] 50 150 none
        (some "NC_000007.14") ResidueMode.residue :=
  (C10_empty_chromosome_falsy fixtureTranslate [exampleRow] 50 150
      ResidueMode.residue).1 (some "NC_000007.14")
